import Mathlib

/-!
Verification development for the MoodleDL downloader
(`src/moodle_downloader.py`).  The Python source is shallowly embedded:
pure helpers become Lean functions on `String` / `List Char`, the
effectful download and crawl routines become functions over explicit
oracles for the transport and the filesystem, producing a trace of the
external effects they perform.  External library capabilities
(`urllib.parse`, `mimetypes`, the HTML selector queries of BeautifulSoup)
are modelled by small executable functions or by oracle parameters, as
noted in the doc comment of each definition.
-/

namespace MoodleDL

/-! ## String utilities (models of Python's `in`, `startswith`, slicing) -/

/-- Models Python's substring test `pat in s` on character lists. -/
def listContainsSub (pat : List Char) : List Char → Bool
  | [] => pat.isEmpty
  | c :: rest => pat.isPrefixOf (c :: rest) || listContainsSub pat rest

/-- Models Python's substring test `pat in s` for strings. -/
def strContains (s pat : String) : Bool :=
  listContainsSub pat.toList s.toList

/-- Models `url.startswith(("http://", "https://"))`. -/
def startsWithHttp (url : String) : Bool :=
  ("http://").toList.isPrefixOf url.toList ||
  ("https://").toList.isPrefixOf url.toList

/-- Characters up to (excluding) the first occurrence of `c`. -/
def takeUntilChar (c : Char) : List Char → List Char
  | [] => []
  | d :: rest => if d = c then [] else d :: takeUntilChar c rest

/-- Characters strictly after the first occurrence of `c`
(the whole rest of the list); `none` when `c` does not occur. -/
def afterChar (c : Char) : List Char → Option (List Char)
  | [] => none
  | d :: rest => if d = c then some rest else afterChar c rest

/-! ## `sanitize_filename` (source lines 388-393)

```python
def sanitize_filename(self, filename):
    s = re.sub(r'[\\/*?:"<>|]', "_", filename)
    return s.strip(". ")[0:100]
```
-/

/-- The character class of `re.sub(r'[\\/*?:"<>|]', "_", ...)`. -/
def isIllegalChar (c : Char) : Bool :=
  c = '\\' || c = '/' || c = '*' || c = '?' || c = ':' ||
  c = '"' || c = '<' || c = '>' || c = '|'

/-- One step of the `re.sub` replacement: an illegal character becomes
an underscore. -/
def replaceIllegal (c : Char) : Char :=
  if isIllegalChar c then '_' else c

/-- The strip set of `s.strip(". ")`. -/
def isDotOrSpace (c : Char) : Bool :=
  c = '.' || c = ' '

/-- Remove trailing characters of the strip set
(the right half of Python's `str.strip`). -/
def rstripDotSpace (l : List Char) : List Char :=
  ((l.reverse.dropWhile isDotOrSpace)).reverse

/-- Models `s.strip(". ")`: drop leading and trailing dots and spaces. -/
def stripDotSpace (l : List Char) : List Char :=
  (rstripDotSpace l).dropWhile isDotOrSpace

/-- `sanitize_filename` on character lists: substitute illegal
characters, strip leading/trailing dots and spaces, then slice `[0:100]`. -/
def sanitizeList (l : List Char) : List Char :=
  (stripDotSpace (l.map replaceIllegal)).take 100

/-- `sanitize_filename` (source lines 388-393). -/
def sanitize_filename (s : String) : String :=
  ⟨sanitizeList s.toList⟩

/-- The replacement character of an illegal character is never itself
illegal. -/
theorem replaceIllegal_not_illegal (c : Char) :
    isIllegalChar (replaceIllegal c) = false := by
  unfold replaceIllegal
  by_cases h : isIllegalChar c = true
  · rw [if_pos h]; decide
  · rw [if_neg h]; exact Bool.not_eq_true _ |>.mp h

/-- The head of a `dropWhile` result never satisfies the dropped
predicate. -/
theorem head?_dropWhile_false {α : Type} (p : α → Bool) :
    ∀ (l : List α) (c : α), (l.dropWhile p).head? = some c → p c = false := by
  intro l
  induction l with
  | nil => intro c h; simp [List.dropWhile] at h
  | cons a t ih =>
    intro c h
    rw [List.dropWhile_cons] at h
    by_cases hp : p a = true
    · rw [if_pos hp] at h; exact ih c h
    · rw [if_neg hp] at h
      simp only [List.head?_cons, Option.some.injEq] at h
      subst h
      exact Bool.not_eq_true _ |>.mp hp

/-- If `dropWhile` leaves a list with last element `c`, then `c` was
also the last element of the input. -/
theorem getLast?_dropWhile_some {α : Type} (p : α → Bool) :
    ∀ (l : List α) (c : α), (l.dropWhile p).getLast? = some c →
      l.getLast? = some c := by
  intro l
  induction l with
  | nil => intro c h; simp [List.dropWhile] at h
  | cons a t ih =>
    intro c h
    rw [List.dropWhile_cons] at h
    by_cases hp : p a = true
    · rw [if_pos hp] at h
      have ht := ih c h
      cases t with
      | nil => simp at ht
      | cons b u => rw [List.getLast?_cons_cons]; exact ht
    · rw [if_neg hp] at h; exact h

/-- Membership in the stripped list implies membership in the input. -/
theorem mem_stripDotSpace {c : Char} {l : List Char} :
    c ∈ stripDotSpace l → c ∈ l := by
  intro h
  unfold stripDotSpace rstripDotSpace at h
  have h1 : c ∈ (l.reverse.dropWhile isDotOrSpace).reverse :=
    (List.dropWhile_sublist _).mem h
  have h2 : c ∈ l.reverse.dropWhile isDotOrSpace := List.mem_reverse.mp h1
  exact List.mem_reverse.mp ((List.dropWhile_sublist _).mem h2)

/-- The last element of the stripped list never lies in the strip set. -/
theorem getLast?_stripDotSpace {c : Char} {l : List Char} :
    (stripDotSpace l).getLast? = some c → isDotOrSpace c = false := by
  intro h
  unfold stripDotSpace at h
  have h1 : (rstripDotSpace l).getLast? = some c :=
    getLast?_dropWhile_some _ _ _ h
  unfold rstripDotSpace at h1
  rw [List.getLast?_reverse] at h1
  exact head?_dropWhile_false _ _ _ h1

/-- Claim C5 (amended): `sanitize_filename` replaces every illegal
character (`\ / * ? : " < > |`) with an underscore — the result contains
no illegal character — it is never longer than 100 characters and never
starts with a dot or a space; it never ends with a dot or a space
provided the stripped string fits in 100 characters (the `[0:100]` slice
is applied after `strip(". ")`, so truncation can reintroduce a trailing
dot or space). -/
theorem sanitize_filename_spec (s : String) :
    (sanitize_filename s).toList.length ≤ 100 ∧
    (∀ c ∈ (sanitize_filename s).toList, isIllegalChar c = false) ∧
    (∀ c, (sanitize_filename s).toList.head? = some c →
      isDotOrSpace c = false) ∧
    ((stripDotSpace (s.toList.map replaceIllegal)).length ≤ 100 →
      ∀ c, (sanitize_filename s).toList.getLast? = some c →
        isDotOrSpace c = false) := by
  refine ⟨?_, ?_, ?_, ?_⟩
  · show (sanitizeList s.toList).length ≤ 100
    unfold sanitizeList
    rw [List.length_take]
    exact min_le_left _ _
  · intro c hc
    have hc' : c ∈ stripDotSpace (s.toList.map replaceIllegal) :=
      List.mem_of_mem_take hc
    have hm : c ∈ s.toList.map replaceIllegal := mem_stripDotSpace hc'
    obtain ⟨a, _, ha⟩ := List.mem_map.mp hm
    rw [← ha]
    exact replaceIllegal_not_illegal a
  · intro c hc
    show isDotOrSpace c = false
    have hts : (sanitize_filename s).toList
        = (stripDotSpace (s.toList.map replaceIllegal)).take 100 := rfl
    rw [hts, List.head?_take] at hc
    simp only [OfNat.ofNat_ne_zero, if_false] at hc
    unfold stripDotSpace at hc
    exact head?_dropWhile_false _ _ _ hc
  · intro hlen c hc
    have hts : (sanitize_filename s).toList
        = (stripDotSpace (s.toList.map replaceIllegal)).take 100 := rfl
    rw [hts, List.take_of_length_le hlen] at hc
    exact getLast?_stripDotSpace hc

/-- A concrete 101-character name: 99 `a`s, a dot, then `b`. -/
def c5LongName : String :=
  ⟨List.replicate 99 'a' ++ ['.', 'b']⟩

/-- Claim C5 (counterexample): the claim says the sanitized result never
ends with a dot, but sanitizing the 101-character name
`"a"*99 ++ ".b"` (no illegal characters, nothing to strip) truncates at
100 characters and the truncated result ends with a dot. -/
theorem sanitize_filename_cex :
    (sanitize_filename c5LongName).toList.getLast? = some '.' := by decide

/-- Claim C5 (witness): the amended theorem applied to the concrete
input `"a.b"`, whose sanitized form starts with `a` and ends with `b`. -/
theorem sanitize_filename_spec_witness :
    isDotOrSpace 'a' = false ∧ isDotOrSpace 'b' = false := by
  constructor
  · exact (sanitize_filename_spec ("a.b")).2.2.1 'a' (by decide)
  · exact (sanitize_filename_spec ("a.b")).2.2.2 (by decide) 'b' (by decide)

/-! ## URL helpers (models of `urllib.parse` and `os.path`, the external
standard-library capabilities the source calls) -/

/-- Index of the last occurrence of `c` (models Python's `str.rfind`,
with `none` for "not found"); accumulator-based scan. -/
def lastIdxOfAux (c : Char) : List Char → Nat → Option Nat → Option Nat
  | [], _, acc => acc
  | d :: rest, i, acc =>
    lastIdxOfAux c rest (i + 1) (if d = c then some i else acc)

/-- Index of the last occurrence of `c` in `l`. -/
def lastIdxOf (c : Char) (l : List Char) : Option Nat :=
  lastIdxOfAux c l 0 none

/-- Models `os.path.splitext` (posix flavour): split at the last dot of
the final path component, unless every character between the component
start and that dot is itself a dot. -/
def splitextList (l : List Char) : List Char × List Char :=
  match lastIdxOf '.' l with
  | none => (l, [])
  | some d =>
    let start := match lastIdxOf '/' l with
      | none => 0
      | some s => s + 1
    if start ≤ d then
      if ((l.drop start).take (d - start)).any (fun x => x ≠ '.') then
        (l.take d, l.drop d)
      else (l, [])
    else (l, [])

/-- Hexadecimal value of a character, if any. -/
def hexVal (c : Char) : Option Nat :=
  if '0' ≤ c ∧ c ≤ '9' then some (c.toNat - ('0').toNat)
  else if 'a' ≤ c ∧ c ≤ 'f' then some (c.toNat - ('a').toNat + 10)
  else if 'A' ≤ c ∧ c ≤ 'F' then some (c.toNat - ('A').toNat + 10)
  else none

/-- Models `urllib.parse.unquote` for single-byte percent escapes
(multi-byte UTF-8 escapes do not occur in the claims' inputs);
a malformed escape is kept literally, as in Python. -/
def percentDecode : List Char → List Char
  | [] => []
  | '%' :: h1 :: h2 :: rest =>
    match hexVal h1, hexVal h2 with
    | some a, some b => Char.ofNat (16 * a + b) :: percentDecode rest
    | _, _ => '%' :: percentDecode (h1 :: h2 :: rest)
  | c :: rest => c :: percentDecode rest

/-- The suffix after the first occurrence of `pat`, if `pat` occurs. -/
def dropThrough (pat : List Char) : List Char → Option (List Char)
  | [] => if pat.isEmpty then some [] else none
  | c :: rest =>
    if pat.isPrefixOf (c :: rest) then some ((c :: rest).drop pat.length)
    else dropThrough pat rest

/-- Models `urllib.parse.urlparse(url).path` for http(s)-style URLs:
cut the fragment (`#`) and the query (`?`), then skip the
`scheme://netloc` part when present. -/
def urlPathOf (url : String) : List Char :=
  let l := takeUntilChar '#' url.toList
  let l := takeUntilChar '?' l
  match dropThrough ("://").toList l with
  | some rest => rest.dropWhile (fun c => c ≠ '/')
  | none => l

/-- Models `urllib.parse.urlparse(url).query`: the part between the
first `?` and the fragment. -/
def urlQueryOf (url : String) : List Char :=
  match afterChar '?' (takeUntilChar '#' url.toList) with
  | some q => q
  | none => []

/-- Models `os.path.basename`: the part after the last slash. -/
def basenameList (l : List Char) : List Char :=
  (l.reverse.takeWhile (fun c => c ≠ '/')).reverse

/-- Models `re.search(key + r'(\d+)', s)`: the digit run after the
first occurrence of `key` that is directly followed by a digit. -/
def findNumAfterList (key : List Char) : List Char → Option (List Char)
  | [] => none
  | c :: rest =>
    let here :=
      if key.isPrefixOf (c :: rest) then
        let ds := ((c :: rest).drop key.length).takeWhile Char.isDigit
        if ds.isEmpty then none else some ds
      else none
    match here with
    | some ds => some ds
    | none => findNumAfterList key rest

/-- String-level wrapper for `findNumAfterList`. -/
def findNumAfter (key : String) (s : String) : Option String :=
  (findNumAfterList key.toList s.toList).map (fun l => ⟨l⟩)

/-- The literal of the `re.search(r'pdf=(\d+)', url)` pattern. -/
def pdfKey : String := "pdf="

/-- The literal of the `re.search(r'doc=(\d+)', url)` pattern. -/
def docKey : String := "doc="

/-! ## `get_file_extension` (source lines 157-287) -/

/-- Models Python's `mimetypes.guess_extension` (external standard
library) for the MIME types relevant to this repository. -/
def guess_extension (ct : String) : Option String :=
  if ct = "application/pdf" then some (".pdf")
  else if ct = "application/zip" then some (".zip")
  else if ct = "application/json" then some (".json")
  else if ct = "text/plain" then some (".txt")
  else if ct = "text/html" then some (".html")
  else if ct = "image/jpeg" then some (".jpg")
  else if ct = "image/png" then some (".png")
  else if ct = "audio/mpeg" then some (".mp3")
  else if ct = "video/mp4" then some (".mp4")
  else none

/-- Models `headers['Content-Type'].split(';')[0].strip()`. -/
def ctMain (v : String) : String :=
  ⟨((takeUntilChar ';' v.toList).dropWhile Char.isWhitespace).reverse.dropWhile
      Char.isWhitespace |>.reverse⟩

/-- The `common_formats` table of `get_file_extension`
(source lines 191-280), in the source's insertion order. -/
def common_formats : List (String × String) :=
  [("pdf", ".pdf"), ("docx", ".docx"), ("doc", ".doc"), ("pptx", ".pptx"),
   ("ppt", ".ppt"), ("xlsx", ".xlsx"), ("xls", ".xls"), ("txt", ".txt"),
   ("rtf", ".rtf"), ("odt", ".odt"), ("ods", ".ods"), ("odp", ".odp"),
   ("jpg", ".jpg"), ("jpeg", ".jpeg"), ("png", ".png"), ("gif", ".gif"),
   ("svg", ".svg"), ("bmp", ".bmp"), ("tiff", ".tiff"), ("tif", ".tif"),
   ("mp3", ".mp3"), ("wav", ".wav"), ("aac", ".aac"), ("flac", ".flac"),
   ("ogg", ".ogg"), ("m4a", ".m4a"), ("mp4", ".mp4"), ("mov", ".mov"),
   ("avi", ".avi"), ("wmv", ".wmv"), ("webm", ".webm"), ("mkv", ".mkv"),
   ("flv", ".flv"), ("m4v", ".m4v"), ("zip", ".zip"), ("rar", ".rar"),
   ("7z", ".7z"), ("tar", ".tar"), ("gz", ".gz"), ("tgz", ".tgz"),
   ("py", ".py"), ("java", ".java"), ("html", ".html"), ("htm", ".htm"),
   ("css", ".css"), ("js", ".js"), ("php", ".php"), ("sql", ".sql"),
   ("r", ".r"), ("m", ".m"), ("c", ".c"), ("cpp", ".cpp"), ("h", ".h"),
   ("ipynb", ".ipynb"), ("tex", ".tex"), ("epub", ".epub"),
   ("mobi", ".mobi"), ("srt", ".srt"), ("vtt", ".vtt"), ("xml", ".xml"),
   ("json", ".json"), ("csv", ".csv"), ("mm", ".mm"), ("xmind", ".xmind"),
   ("h5p", ".h5p"), ("psd", ".psd"), ("ai", ".ai"), ("dwg", ".dwg"),
   ("dxf", ".dxf"), ("mus", ".mus"), ("sib", ".sib"), ("cdx", ".cdx"),
   ("ggb", ".ggb")]

/-- Priority 1 of `get_file_extension`: extension of the original
filename, when one was given. -/
def ext_from_original (ofn : Option String) : List Char :=
  match ofn with
  | some f => (splitextList f.toList).2
  | none => []

/-- Priority 2 of `get_file_extension`: extension parsed from the
(unquoted) URL path's basename. -/
def ext_from_url_path (url : String) : List Char :=
  (splitextList (basenameList (percentDecode (urlPathOf url)))).2

/-- `get_file_extension` (source lines 157-287): the priority chain
original-filename extension, URL-path extension (only when at most 10
characters), content-type mapping, `pdf=`/`doc=` query patterns,
the `common_formats` substring table, and the `.bin` fallback. -/
def get_file_extension (url : String) (content_type : Option String)
    (original_filename : Option String) : String :=
  let e1 := ext_from_original original_filename
  if e1 ≠ [] then ⟨e1⟩
  else
    let e2 := ext_from_url_path url
    if e2 ≠ [] ∧ e2.length ≤ 10 then ⟨e2⟩
    else
      match content_type.bind (fun v => guess_extension (ctMain v)) with
      | some e => e
      | none =>
        if (findNumAfter pdfKey url).isSome then (".pdf")
        else if (findNumAfter docKey url).isSome then (".doc")
        else
          match common_formats.find?
              (fun p => strContains ⟨(url.toList.map Char.toLower)⟩ p.1) with
          | some p => p.2
          | none => (".bin")

/-- Claim C8 (amended): with no original filename and no content-type
header, a URL whose path carries no extension, matching no `pdf=<digits>`
fragment but containing a `doc=<digits>` fragment, resolves to `.doc`
(the URL-path and `pdf=` tiers take precedence over the `doc=` tier);
and with no original filename, a URL whose path carries no extension
resolves to `.pdf` when the response's content type is
`application/pdf`. -/
theorem get_file_extension_spec :
    (∀ url : String,
      ext_from_url_path url = [] →
      findNumAfter pdfKey url = none →
      (findNumAfter docKey url).isSome = true →
      get_file_extension url none none = (".doc")) ∧
    (∀ url : String,
      ext_from_url_path url = [] →
      get_file_extension url (some ("application/pdf")) none = (".pdf")) := by
  constructor
  · intro url h2 hpdf hdoc
    unfold get_file_extension
    rw [h2, hpdf, hdoc]
    simp [ext_from_original]
  · intro url h2
    unfold get_file_extension
    rw [h2]
    simp [ext_from_original]
    rfl

/-- The concrete URL refuting claim C8: it contains `doc=123`, yet its
path component ends in `.pdf`. -/
def c8Url : String := "https://host/files/report.pdf?doc=123"

/-- Claim C8 (counterexample): the claim says every URL with a
`doc=<digits>` fragment resolves to `.doc` when no original filename and
no content type are given, but `https://host/files/report.pdf?doc=123`
contains `doc=123` and resolves to `.pdf` (the URL-path extension tier
fires first). -/
theorem get_file_extension_cex :
    (findNumAfter docKey c8Url).isSome = true ∧
    get_file_extension c8Url none none = (".pdf") ∧
    (".pdf" : String) ≠ (".doc") := by decide

/-- Claim C8 (witness): the amended theorem applied to the concrete
URLs `https://host/view?doc=77` and `https://host/view`. -/
theorem get_file_extension_spec_witness :
    get_file_extension ("https://host/view?doc=77") none none = (".doc") ∧
    get_file_extension ("https://host/view") (some ("application/pdf")) none
      = (".pdf") := by
  constructor
  · exact get_file_extension_spec.1 ("https://host/view?doc=77")
      (by decide) (by decide) (by decide)
  · exact get_file_extension_spec.2 ("https://host/view") (by decide)

/-! ## Course discovery and deduplication
(`get_courses`, source lines 89-123) -/

/-- A discovered course: absolute URL plus display name
(the dictionaries built by `_extract_courses_from_page`). -/
structure Course where
  url : String
  name : String
deriving DecidableEq, Repr

/-- The deduplication loop of `get_courses` (source lines 114-123):
walk the collected course list, keeping a course only when its URL has
not been seen yet. -/
def dedupeCourses : List Course → List String → List Course
  | [], _ => []
  | c :: rest, seen =>
    if c.url ∈ seen then dedupeCourses rest seen
    else c :: dedupeCourses rest (c.url :: seen)

/-- The `unique_courses` value returned by `get_courses`: deduplication
starting from an empty seen set. -/
def unique_courses (courses : List Course) : List Course :=
  dedupeCourses courses []

/-- Deduplication preserves the first course found for any URL not
already marked as seen. -/
theorem dedupeCourses_find? (u : String) :
    ∀ (l : List Course) (seen : List String), u ∉ seen →
      (dedupeCourses l seen).find? (fun c => c.url == u)
        = l.find? (fun c => c.url == u) := by
  intro l
  induction l with
  | nil => intro seen _; rfl
  | cons c rest ih =>
    intro seen hu
    unfold dedupeCourses
    by_cases hm : c.url ∈ seen
    · rw [if_pos hm]
      have hne : (c.url == u) = false := by
        simp only [beq_eq_false_iff_ne, ne_eq]
        intro h
        exact hu (h ▸ hm)
      rw [List.find?_cons, hne, ih seen hu]
    · rw [if_neg hm]
      by_cases hq : (c.url == u) = true
      · rw [List.find?_cons, hq, List.find?_cons, hq]
      · have hq' : (c.url == u) = false := Bool.not_eq_true _ |>.mp hq
        have hu' : u ∉ c.url :: seen := by
          intro h
          rcases List.mem_cons.mp h with h | h
          · rw [h] at hq'; simp at hq'
          · exact hu h
        rw [List.find?_cons, hq', List.find?_cons, hq']
        exact ih _ hu'

/-- The deduplicated list has pairwise distinct URLs, none of them in
the seen set. -/
theorem dedupeCourses_nodup :
    ∀ (l : List Course) (seen : List String),
      ((dedupeCourses l seen).map Course.url).Nodup ∧
      ∀ u ∈ (dedupeCourses l seen).map Course.url, u ∉ seen := by
  intro l
  induction l with
  | nil =>
    intro seen
    unfold dedupeCourses
    exact ⟨List.nodup_nil, by intro u hu; simp at hu⟩
  | cons c rest ih =>
    intro seen
    unfold dedupeCourses
    by_cases hm : c.url ∈ seen
    · rw [if_pos hm]; exact ih seen
    · rw [if_neg hm]
      obtain ⟨ihn, ihs⟩ := ih (c.url :: seen)
      refine ⟨?_, ?_⟩
      · rw [List.map_cons]
        refine List.nodup_cons.mpr ⟨?_, ihn⟩
        intro hmem
        exact ihs c.url hmem (List.mem_cons_self _ _)
      · intro u hu
        rw [List.map_cons] at hu
        rcases List.mem_cons.mp hu with h | h
        · rw [h]; exact hm
        · intro hs
          exact ihs u h (List.mem_cons_of_mem _ hs)

/-- Claim C7: course discovery deduplicates by exact URL — the returned
list has pairwise-distinct URLs, and for any URL the returned entry is
exactly the first course with that URL in the collected list (so two
discovery pages listing the same course URL under different anchor text
yield exactly one entry, keyed by URL, with the first occurrence's
name). -/
theorem unique_courses_spec (courses : List Course) :
    ((unique_courses courses).map Course.url).Nodup ∧
    ∀ u : String,
      (unique_courses courses).find? (fun c => c.url == u)
        = courses.find? (fun c => c.url == u) := by
  refine ⟨(dedupeCourses_nodup courses []).1, ?_⟩
  intro u
  exact dedupeCourses_find? u courses [] (by simp)

/-! ## Error propagation of the crawl
(`process_course` lines 395-442, the per-link loops of
`_process_resources` / `_process_folders` / `_process_assignments`,
and the course loop of `run`, lines 779-783)

Fallible external operations (HTTP requests, directory creation, the
per-link processing bodies) are modelled by their outcome: `Option
CrawlErr` for an operation executed for its effect, `Except CrawlErr
(Option String)` for the processing of one link (`Option String` being
the `download_file` result).  The embedding keeps exactly the
`try`/`except` structure of the source: each link body is guarded
(source lines 481-505, 677-702, 709-742), while `os.makedirs` of the
course and section directories (lines 401 and 435), the course-page
fetch (line 404) and the course loop of `run` (lines 780-781) are
unguarded. -/

/-- Kinds of per-operation failures. -/
inductive CrawlErr
  | transport
  | filesystem
deriving DecidableEq, Repr

/-- One course section as seen by `process_course`: the outcome of
creating its directory, and the outcomes of processing each resource,
folder and assignment link found in it. -/
structure SectionModel where
  mkdirResult : Option CrawlErr
  resourceLinks : List (Except CrawlErr (Option String))
  folderLinks : List (Except CrawlErr (Option String))
  assignmentLinks : List (Except CrawlErr (Option String))
deriving Repr

/-- One course as seen by `run`: its name, the outcome of creating the
course directory, the outcome of fetching the course page, and its
sections. -/
structure CourseModel where
  name : String
  mkdirResult : Option CrawlErr
  pageFetch : Option CrawlErr
  sections : List SectionModel
deriving Repr

/-- The per-link loops: each link body runs inside `try`/`except`, so a
failing link is logged and skipped, and a successful download
contributes its path. -/
def processLinkLoop : List (Except CrawlErr (Option String)) → List String
  | [] => []
  | Except.error _ :: rest => processLinkLoop rest
  | Except.ok none :: rest => processLinkLoop rest
  | Except.ok (some p) :: rest => p :: processLinkLoop rest

/-- Processing of one section inside `process_course`: the
`os.makedirs(section_dir)` call (line 435) is not guarded, so its
failure propagates; the three per-link loops never propagate. -/
def processSection (s : SectionModel) : Except CrawlErr (List String) :=
  match s.mkdirResult with
  | some e => Except.error e
  | none =>
    Except.ok (processLinkLoop s.resourceLinks ++
      processLinkLoop s.folderLinks ++ processLinkLoop s.assignmentLinks)

/-- The section loop of `process_course` (lines 425-440): sequential,
with no handler around a section. -/
def processSections : List SectionModel → Except CrawlErr (List String)
  | [] => Except.ok []
  | s :: rest =>
    match processSection s with
    | Except.error e => Except.error e
    | Except.ok fs =>
      match processSections rest with
      | Except.error e => Except.error e
      | Except.ok fs' => Except.ok (fs ++ fs')

/-- `process_course` (lines 395-442): course directory creation
(line 401) and the course-page fetch (line 404) are unguarded, then the
sections are processed. -/
def process_course (c : CourseModel) : Except CrawlErr (List String) :=
  match c.mkdirResult with
  | some e => Except.error e
  | none =>
    match c.pageFetch with
    | some e => Except.error e
    | none => processSections c.sections

/-- The course loop of `run` (lines 780-781): no `try`/`except`, so an
exception escaping `process_course` aborts the loop over the remaining
courses. -/
def runCourseLoop : List CourseModel → Except CrawlErr (List (String × List String))
  | [] => Except.ok []
  | c :: rest =>
    match process_course c with
    | Except.error e => Except.error e
    | Except.ok fs =>
      match runCourseLoop rest with
      | Except.error e => Except.error e
      | Except.ok acc => Except.ok ((c.name, fs) :: acc)

/-- A course whose only section fails its directory creation. -/
def c6BadCourse : CourseModel :=
  ⟨"Course A", none, none, [⟨some CrawlErr.filesystem, [], [], []⟩]⟩

/-- A healthy course with one section containing one successful link
and one failing (caught) link. -/
def c6GoodCourse : CourseModel :=
  ⟨"Course B", none, none,
    [⟨none, [Except.ok (some ("f.pdf")), Except.error CrawlErr.transport],
      [], []⟩]⟩

/-- Claim C6 (counterexample): the claim says every per-section error is
caught at the section boundary and never aborts the crawl over remaining
courses, but a filesystem failure while creating one section's directory
(`os.makedirs(section_dir)`, an unguarded per-section operation) escapes
`process_course`, and the course loop of `run` has no handler: the crawl
over `[c6BadCourse, c6GoodCourse]` aborts with the error and the healthy
second course is never processed, although that course alone processes
fine. -/
theorem runCourseLoop_cex :
    runCourseLoop [c6GoodCourse]
      = Except.ok [(("Course B"), [("f.pdf")])] ∧
    runCourseLoop [c6BadCourse, c6GoodCourse]
      = Except.error CrawlErr.filesystem := by
  exact ⟨rfl, rfl⟩

/-- All sections create their directories successfully. -/
theorem processSections_ok (ss : List SectionModel)
    (h : ∀ s ∈ ss, s.mkdirResult = none) :
    ∃ l, processSections ss = Except.ok l := by
  induction ss with
  | nil => exact ⟨[], rfl⟩
  | cons s rest ih =>
    have hs : s.mkdirResult = none := h s (List.mem_cons_self _ _)
    obtain ⟨l, hl⟩ := ih (fun t ht => h t (List.mem_cons_of_mem _ ht))
    refine ⟨processLinkLoop s.resourceLinks ++ processLinkLoop s.folderLinks ++
      processLinkLoop s.assignmentLinks ++ l, ?_⟩
    unfold processSections processSection
    rw [hs, hl]

/-- Claim C6 (amended): every per-resource error (a failing resource,
folder or assignment link body) is caught at the per-link boundary and
downgraded to a logged warning, so a bad link never aborts its section,
its course or the crawl; but section-level and course-level failures
(section/course directory creation, the course-page fetch) are not
caught inside the crawl — when those all succeed, the crawl completes
over all courses whatever the per-link outcomes. -/
theorem runCourseLoop_spec (cs : List CourseModel)
    (h : ∀ c ∈ cs, c.mkdirResult = none ∧ c.pageFetch = none ∧
      ∀ s ∈ c.sections, s.mkdirResult = none) :
    ∃ l, runCourseLoop cs = Except.ok l ∧
      l.map Prod.fst = cs.map CourseModel.name := by
  induction cs with
  | nil => exact ⟨[], rfl, rfl⟩
  | cons c rest ih =>
    obtain ⟨hm, hp, hs⟩ := h c (List.mem_cons_self _ _)
    obtain ⟨l, hl, hmap⟩ := ih (fun t ht => h t (List.mem_cons_of_mem _ ht))
    obtain ⟨fs, hfs⟩ := processSections_ok c.sections hs
    have hc : process_course c = Except.ok fs := by
      unfold process_course
      rw [hm, hp, hfs]
    refine ⟨(c.name, fs) :: l, ?_, ?_⟩
    · unfold runCourseLoop
      rw [hc, hl]
    · rw [List.map_cons, List.map_cons, hmap]

/-- Claim C6 (witness): the amended theorem applied to the single
healthy course, whose section contains a caught failing link. -/
theorem runCourseLoop_spec_witness :
    ∃ l, runCourseLoop [c6GoodCourse] = Except.ok l ∧
      l.map Prod.fst = [c6GoodCourse].map CourseModel.name := by
  exact runCourseLoop_spec [c6GoodCourse] (by decide)

/-! ## `download_file` (source lines 289-386)

The transport is an oracle mapping the attempt number to the response
observed on that attempt (the HEAD probe's final URL after redirects,
and the headers of the streaming GET of the same attempt); the
filesystem is a map from paths to the size of the existing file, if
any.  The run produces the trace of external effects (HEAD request,
GET request, re-login, file write) together with the returned value.
Python's recursion limit is modelled by a fuel argument: exhausted fuel
is the `RecursionError` that the surrounding `try`/`except` turns into
a `None` return.  `login()` (source lines 42-87) is modelled as an
effect that succeeds — its failure path exits the whole process and is
outside this claim's scope. -/

/-- Response data consumed by one attempt of `download_file`. -/
structure HttpResponse where
  finalUrl : String
  contentDisposition : Option String
  contentType : Option String
  contentLength : Option Nat
deriving DecidableEq, Repr

/-- External effects performed by `download_file`. -/
inductive DlEvent
  | headReq (url : String)
  | getReq (url : String)
  | login
  | fileWrite (path : String) (size : Nat)
deriving DecidableEq, Repr

/-- The login-page marker of the expiry check (source line 300):
`"login" in head_response.url and "login" not in url`. -/
def loginMarker : String := "login"

/-- Models `re.findall('filename="(.+?)"', cd)` taking the first match:
the (nonempty) run of characters between the first `filename="` and the
next quote. -/
def cdFilename (cd : String) : Option String :=
  match dropThrough ("filename=\"").toList cd.toList with
  | none => none
  | some rest =>
    let name := takeUntilChar '"' rest
    if name.isEmpty ∨ listContainsSub [('"')] rest = false then none
    else some ⟨name⟩

/-- Filename resolution of `download_file` (source lines 308-326):
when no name is passed in, take the `Content-Disposition` filename,
else the URL path's basename, and cut a query-string remnant; returns
`(original_filename, filename)` as in the source, where
`original_filename` stays `None` when a name was passed in. -/
def resolve_filename (url : String) (filename? : Option String)
    (cd : Option String) : Option String × String :=
  match filename? with
  | some f => (none, f)
  | none =>
    let base : String := ⟨basenameList (urlPathOf url)⟩
    let orig : String :=
      match cd with
      | some c =>
        match cdFilename c with
        | some m => m
        | none => base
      | none => base
    let f : String :=
      if listContainsSub [('?')] orig.toList then ⟨takeUntilChar '?' orig.toList⟩
      else orig
    (some orig, f)

/-- Extension append of `download_file` (source lines 328-335): when
the resolved filename has no extension or a degenerate one-character
extension, append the inferred extension (`get_file_extension` always
returns a nonempty string, so the `if new_ext:` guard always passes). -/
def with_extension (url : String) (ct : Option String)
    (orig : Option String) (f : String) : String :=
  let e := (splitextList f.toList).2
  if e.isEmpty ∨ e.length ≤ 1 then f ++ get_file_extension url ct orig else f

/-- Models `os.path.join` for a directory path and a relative name. -/
def joinPath (dir f : String) : String := dir ++ ("/") ++ f

/-- The full target path computed by `download_file` (source line 338)
from the response and the optional explicit filename. -/
def download_target (url : String) (r : HttpResponse) (path : String)
    (filename? : Option String) : String :=
  let p := resolve_filename url filename? r.contentDisposition
  joinPath path (sanitize_filename (with_extension url r.contentType p.1 p.2))

/-- `abs(existing_size - expected_size)` on natural numbers. -/
def absDiffNat (a b : Nat) : Nat := max a b - min a b

/-- `download_file` (source lines 289-386).  Arguments after the oracle,
filesystem, force flag, `urljoin` model and base URL: the fuel (Python's
recursion headroom), the attempt index (which oracle entry this attempt
observes), then `url`, `path`, `filename` as in the source. -/
def download_file (oracle : Nat → HttpResponse) (fs : String → Option Nat)
    (force : Bool) (ujoin : String → String → String) (base_url : String) :
    Nat → Nat → String → String → Option String → List DlEvent × Option String
  | 0 => fun _ _ _ _ => ([], none)
  | fuel + 1 => fun attempt url path filename? =>
    let url1 := if startsWithHttp url = true then url else ujoin base_url url
    let r := oracle attempt
    if strContains r.finalUrl loginMarker = true ∧
        strContains url1 loginMarker = false then
      let cont := download_file oracle fs force ujoin base_url fuel
        (attempt + 1) url1 path filename?
      (DlEvent.headReq url1 :: DlEvent.login :: cont.1, cont.2)
    else
      let fp := download_target url1 r path filename?
      let evs := [DlEvent.headReq url1, DlEvent.getReq url1]
      let proceed : List DlEvent × Option String :=
        let total := r.contentLength.getD 0
        if total = 0 then (evs, none)
        else (evs ++ [DlEvent.fileWrite fp total], some fp)
      if force = false ∧ 0 < (fs fp).getD 0 then
        let existing := (fs fp).getD 0
        let expected := r.contentLength.getD 0
        if expected = 0 ∨ absDiffNat existing expected < 100 then (evs, some fp)
        else proceed
      else proceed

/-- Number of re-authentications in a trace. -/
def countLogin : List DlEvent → Nat
  | [] => 0
  | DlEvent.login :: rest => countLogin rest + 1
  | _ :: rest => countLogin rest

/-- Number of GET requests in a trace. -/
def countGet : List DlEvent → Nat
  | [] => 0
  | DlEvent.getReq _ :: rest => countGet rest + 1
  | _ :: rest => countGet rest

/-- Number of file writes in a trace. -/
def countWrite : List DlEvent → Nat
  | [] => 0
  | DlEvent.fileWrite _ _ :: rest => countWrite rest + 1
  | _ :: rest => countWrite rest

/-- Filesystem after a file of `sz` bytes appears at `p0`. -/
def fsUpdate (fs : String → Option Nat) (p0 : String) (sz : Nat) :
    String → Option Nat :=
  fun p => if p = p0 then some sz else fs p

/-- A response whose final HEAD URL is the login page: the expired
session case. -/
def expiredResponse : HttpResponse :=
  ⟨"https://moodle.example/login/index.php", none, none, none⟩

/-- A transport in which every attempt finds the session expired. -/
def alwaysExpired : Nat → HttpResponse := fun _ => expiredResponse

/-- An empty filesystem. -/
def emptyFs : String → Option Nat := fun _ => none

/-- A trivial model of `urljoin`, sufficient for closed witnesses
(the claims' URLs are already absolute, so it is never consulted). -/
def concatJoin : String → String → String := fun b r => b ++ r

/-- `abs (n - n) = 0`. -/
theorem absDiffNat_self (n : Nat) : absDiffNat n n = 0 := by
  simp [absDiffNat]

/-- A file URL containing no login marker. -/
def c1Url : String := "https://moodle.example/pluginfile.php/9/a.pdf"

/-- Claim C1 (counterexample): the claim says a download re-authenticates
and retries exactly once, a second consecutive expiry being a failure;
but on a persistently expired session with recursion headroom 3 the code
re-authenticates three times (once per recursive retry), not once. -/
theorem download_file_expiry_cex :
    countLogin (download_file alwaysExpired emptyFs false concatJoin
      ("https://moodle.example") 3 0 c1Url ("/dl") none).1 = 3 ∧
    (download_file alwaysExpired emptyFs false concatJoin
      ("https://moodle.example") 3 0 c1Url ("/dl") none).2 = none := by
  decide

/-- Claim C1 (amended): on each detected expiry (HEAD lands on a login
URL while the requested URL contains no login marker) the engine
re-authenticates and recursively retries the download, with no retry
cap: against a persistently expired session it performs one
re-authentication per unit of recursion headroom, and the operation
fails (returns `None`) only when the recursion limit is exhausted and
the `RecursionError` is caught — not after the second consecutive
expiry. -/
theorem download_file_expiry_unbounded
    (fs : String → Option Nat) (force : Bool)
    (uj : String → String → String) (base : String) :
    ∀ (fuel attempt : Nat) (url path : String) (fn : Option String),
      startsWithHttp url = true → strContains url loginMarker = false →
      countLogin (download_file alwaysExpired fs force uj base fuel
        attempt url path fn).1 = fuel ∧
      (download_file alwaysExpired fs force uj base fuel
        attempt url path fn).2 = none := by
  intro fuel
  induction fuel with
  | zero => intro attempt url path fn h1 h2; exact ⟨rfl, rfl⟩
  | succ fuel ih =>
    intro attempt url path fn h1 h2
    have hcond : strContains (alwaysExpired attempt).finalUrl loginMarker
        = true := rfl
    obtain ⟨ihc, ihr⟩ := ih (attempt + 1) url path fn h1 h2
    simp only [download_file, h1, hcond, h2, if_true, and_true,
      eq_self_iff_true, if_pos, countLogin]
    constructor
    · simp only [countLogin, ihc]
    · exact ihr

/-- Claim C1 (witness): the amended theorem applied with recursion
headroom 2 at a concrete file URL. -/
theorem download_file_expiry_unbounded_witness :
    countLogin (download_file alwaysExpired emptyFs false concatJoin
      ("https://moodle.example") 2 0 c1Url ("/dl") none).1 = 2 ∧
    (download_file alwaysExpired emptyFs false concatJoin
      ("https://moodle.example") 2 0 c1Url ("/dl") none).2 = none :=
  download_file_expiry_unbounded emptyFs false concatJoin
    ("https://moodle.example") 2 0 c1Url ("/dl") none
    (by decide) (by decide)

/-- The response of a healthy server delivering a 1000-byte file. -/
def c3Resp : HttpResponse := ⟨"https://m.ex/f/notes.pdf", none, none, some 1000⟩

/-- The downloaded URL of the C3/C4/C9 scenarios. -/
def c3Url : String := "https://m.ex/f/notes.pdf"

/-- The target directory of the C3/C4/C9 scenarios. -/
def c3Path : String := "/dl"

/-- Claim C3 (counterexample): the claim says the two invocations
perform the network GET at most once in total, but `session.get` is
issued before the existing-file check on every invocation: downloading
the same URL to the same path twice (no force flag, reported content
length 1000 equal to the existing file's size) issues two GET requests
— the second invocation merely returns the existing path without a
write. -/
theorem download_file_get_twice_cex :
    c3Resp.contentLength = some 1000 ∧
    (download_file (fun _ => c3Resp) emptyFs false concatJoin
      ("https://m.ex") 1 0 c3Url c3Path (some ("notes.pdf"))).2
      = some ("/dl/notes.pdf") ∧
    countWrite (download_file (fun _ => c3Resp) emptyFs false concatJoin
      ("https://m.ex") 1 0 c3Url c3Path (some ("notes.pdf"))).1 = 1 ∧
    (download_file (fun _ => c3Resp) (fsUpdate emptyFs ("/dl/notes.pdf") 1000)
      false concatJoin ("https://m.ex") 1 0 c3Url c3Path
      (some ("notes.pdf"))).2 = some ("/dl/notes.pdf") ∧
    countWrite (download_file (fun _ => c3Resp)
      (fsUpdate emptyFs ("/dl/notes.pdf") 1000) false concatJoin
      ("https://m.ex") 1 0 c3Url c3Path (some ("notes.pdf"))).1 = 0 ∧
    countGet (download_file (fun _ => c3Resp) emptyFs false concatJoin
      ("https://m.ex") 1 0 c3Url c3Path (some ("notes.pdf"))).1 +
    countGet (download_file (fun _ => c3Resp)
      (fsUpdate emptyFs ("/dl/notes.pdf") 1000) false concatJoin
      ("https://m.ex") 1 0 c3Url c3Path (some ("notes.pdf"))).1 = 2 := by
  decide

/-- Claim C3 (amended): downloading the same URL to the same path twice
without the force flag writes the file's contents at most once: the
first invocation (no existing file, positive reported length `n`)
performs HEAD, GET and one write and returns the path; the second
invocation, finding the `n`-byte file and a reported length equal to its
size, still issues its HEAD and streaming GET requests but returns the
existing path without rewriting the contents. -/
theorem download_file_idempotent
    (r : HttpResponse) (fs : String → Option Nat)
    (uj : String → String → String) (base : String)
    (fuel : Nat) (url path : String) (fn : Option String) (n : Nat)
    (hx : strContains r.finalUrl loginMarker = false)
    (hu : startsWithHttp url = true)
    (hl : r.contentLength = some n) (hn : 0 < n)
    (hfs : fs (download_target url r path fn) = none) :
    download_file (fun _ => r) fs false uj base (fuel + 1) 0 url path fn
      = ([DlEvent.headReq url, DlEvent.getReq url,
          DlEvent.fileWrite (download_target url r path fn) n],
         some (download_target url r path fn)) ∧
    download_file (fun _ => r)
        (fsUpdate fs (download_target url r path fn) n)
        false uj base (fuel + 1) 0 url path fn
      = ([DlEvent.headReq url, DlEvent.getReq url],
         some (download_target url r path fn)) := by
  have hn' : ¬ n = 0 := Nat.pos_iff_ne_zero.mp hn
  constructor
  · simp only [download_file, hu, if_true, hx, Bool.false_eq_true, false_and,
      if_false, hl, hfs, Option.getD_none, Option.getD_some, lt_irrefl,
      and_false, List.append_eq]
    simp [hn']
  · simp only [download_file, hu, if_true, hx, Bool.false_eq_true, false_and,
      if_false, hl, fsUpdate, if_pos, Option.getD_some]
    simp [hn, hn', absDiffNat_self]

/-- Claim C3 (witness): the amended theorem applied to the concrete
1000-byte scenario. -/
theorem download_file_idempotent_witness :
    download_file (fun _ => c3Resp) emptyFs false concatJoin
      ("https://m.ex") 1 0 c3Url c3Path (some ("notes.pdf"))
      = ([DlEvent.headReq c3Url, DlEvent.getReq c3Url,
          DlEvent.fileWrite
            (download_target c3Url c3Resp c3Path (some ("notes.pdf"))) 1000],
         some (download_target c3Url c3Resp c3Path (some ("notes.pdf")))) ∧
    download_file (fun _ => c3Resp)
        (fsUpdate emptyFs
          (download_target c3Url c3Resp c3Path (some ("notes.pdf"))) 1000)
        false concatJoin ("https://m.ex") 1 0 c3Url c3Path
        (some ("notes.pdf"))
      = ([DlEvent.headReq c3Url, DlEvent.getReq c3Url],
         some (download_target c3Url c3Resp c3Path (some ("notes.pdf")))) :=
  download_file_idempotent c3Resp emptyFs concatJoin ("https://m.ex") 0
    c3Url c3Path (some ("notes.pdf")) 1000
    (by decide) (by decide) (by decide) (by decide) (by decide)

/-- Claim C4 (amended): with an existing nonzero-size file at the target
path and no force flag, a *positive* reported content length within 99
bytes of the existing size skips the download (existing path returned,
nothing written); a positive reported length differing by 100 bytes or
more re-downloads and overwrites the file; a missing content length (or
— per the counterexample — a reported length of zero) always keeps the
existing file. -/
theorem download_file_size_tolerance
    (r : HttpResponse) (fs : String → Option Nat)
    (uj : String → String → String) (base : String)
    (fuel : Nat) (url path : String) (fn : Option String) (sz : Nat)
    (hx : strContains r.finalUrl loginMarker = false)
    (hu : startsWithHttp url = true)
    (hfs : fs (download_target url r path fn) = some sz) (hsz : 0 < sz) :
    (∀ n, r.contentLength = some n → 0 < n → absDiffNat sz n < 100 →
      download_file (fun _ => r) fs false uj base (fuel + 1) 0 url path fn
        = ([DlEvent.headReq url, DlEvent.getReq url],
           some (download_target url r path fn))) ∧
    (∀ n, r.contentLength = some n → 0 < n → 100 ≤ absDiffNat sz n →
      download_file (fun _ => r) fs false uj base (fuel + 1) 0 url path fn
        = ([DlEvent.headReq url, DlEvent.getReq url,
            DlEvent.fileWrite (download_target url r path fn) n],
           some (download_target url r path fn))) ∧
    (r.contentLength = none →
      download_file (fun _ => r) fs false uj base (fuel + 1) 0 url path fn
        = ([DlEvent.headReq url, DlEvent.getReq url],
           some (download_target url r path fn))) := by
  refine ⟨?_, ?_, ?_⟩
  · intro n hl hn hdiff
    have hn' : ¬ n = 0 := Nat.pos_iff_ne_zero.mp hn
    simp only [download_file, hu, if_true, hx, Bool.false_eq_true, false_and,
      if_false, hl, hfs, Option.getD_some]
    simp [hsz, hn', hdiff]
  · intro n hl hn hdiff
    have hn' : ¬ n = 0 := Nat.pos_iff_ne_zero.mp hn
    have hdiff' : ¬ absDiffNat sz n < 100 := Nat.not_lt.mpr hdiff
    simp only [download_file, hu, if_true, hx, Bool.false_eq_true, false_and,
      if_false, hl, hfs, Option.getD_some]
    simp [hsz, hn', hdiff']
  · intro hl
    simp only [download_file, hu, if_true, hx, Bool.false_eq_true, false_and,
      if_false, hl, hfs, Option.getD_some, Option.getD_none]
    simp [hsz]

/-- A server reporting a content length of zero bytes. -/
def c4RespZero : HttpResponse := ⟨"https://m.ex/f/notes.pdf", none, none, some 0⟩

/-- Claim C4 (counterexample): the claim says an existing file whose
size differs from the *reported* length by 100 bytes or more is
re-downloaded; but the code reads `headers.get('content-length', 0)`,
so a server reporting `Content-Length: 0` against an existing 500-byte
file (difference 500 ≥ 100) takes the `expected_size == 0` branch and
keeps the file — no write happens and the existing path is returned. -/
theorem download_file_tolerance_cex :
    c4RespZero.contentLength = some 0 ∧
    100 ≤ absDiffNat 500 0 ∧
    download_file (fun _ => c4RespZero)
      (fsUpdate emptyFs ("/dl/notes.pdf") 500) false concatJoin
      ("https://m.ex") 1 0 c3Url c3Path (some ("notes.pdf"))
      = ([DlEvent.headReq c3Url, DlEvent.getReq c3Url],
         some ("/dl/notes.pdf")) := by
  decide

/-- A 1099-byte report against a 1000-byte file: difference 99. -/
def c4RespNear : HttpResponse :=
  ⟨"https://m.ex/f/notes.pdf", none, none, some 1099⟩

/-- An 1100-byte report against a 1000-byte file: difference 100. -/
def c4RespFar : HttpResponse :=
  ⟨"https://m.ex/f/notes.pdf", none, none, some 1100⟩

/-- A response carrying no content length at all. -/
def c4RespNoLen : HttpResponse :=
  ⟨"https://m.ex/f/notes.pdf", none, none, none⟩

/-- Claim C4 (witness): the amended theorem applied to a 1000-byte
existing file with reported lengths 1099 (skip), 1100 (re-download) and
absent (keep). -/
theorem download_file_size_tolerance_witness :
    download_file (fun _ => c4RespNear)
      (fsUpdate emptyFs ("/dl/notes.pdf") 1000) false concatJoin
      ("https://m.ex") 1 0 c3Url c3Path (some ("notes.pdf"))
      = ([DlEvent.headReq c3Url, DlEvent.getReq c3Url],
         some (download_target c3Url c4RespNear c3Path (some ("notes.pdf")))) ∧
    download_file (fun _ => c4RespFar)
      (fsUpdate emptyFs ("/dl/notes.pdf") 1000) false concatJoin
      ("https://m.ex") 1 0 c3Url c3Path (some ("notes.pdf"))
      = ([DlEvent.headReq c3Url, DlEvent.getReq c3Url,
          DlEvent.fileWrite
            (download_target c3Url c4RespFar c3Path (some ("notes.pdf"))) 1100],
         some (download_target c3Url c4RespFar c3Path (some ("notes.pdf")))) ∧
    download_file (fun _ => c4RespNoLen)
      (fsUpdate emptyFs ("/dl/notes.pdf") 1000) false concatJoin
      ("https://m.ex") 1 0 c3Url c3Path (some ("notes.pdf"))
      = ([DlEvent.headReq c3Url, DlEvent.getReq c3Url],
         some (download_target c3Url c4RespNoLen c3Path (some ("notes.pdf")))) := by
  refine ⟨?_, ?_, ?_⟩
  · exact (download_file_size_tolerance c4RespNear
        (fsUpdate emptyFs ("/dl/notes.pdf") 1000) concatJoin ("https://m.ex")
        0 c3Url c3Path (some ("notes.pdf")) 1000
        (by decide) (by decide) (by decide) (by decide)).1
      1099 (by decide) (by decide) (by decide)
  · exact (download_file_size_tolerance c4RespFar
        (fsUpdate emptyFs ("/dl/notes.pdf") 1000) concatJoin ("https://m.ex")
        0 c3Url c3Path (some ("notes.pdf")) 1000
        (by decide) (by decide) (by decide) (by decide)).2.1
      1100 (by decide) (by decide) (by decide)
  · exact (download_file_size_tolerance c4RespNoLen
        (fsUpdate emptyFs ("/dl/notes.pdf") 1000) concatJoin ("https://m.ex")
        0 c3Url c3Path (some ("notes.pdf")) 1000
        (by decide) (by decide) (by decide) (by decide)).2.2 (by decide)

/-- Claim C9: with no existing file at the target path and a response
carrying no `Content-Length` header, `download_file` reads the absent
header as length zero, takes the empty-file skip branch, writes nothing
and returns `None`. -/
theorem download_file_no_content_length
    (r : HttpResponse) (fs : String → Option Nat)
    (uj : String → String → String) (base : String)
    (fuel : Nat) (url path : String) (fn : Option String)
    (hx : strContains r.finalUrl loginMarker = false)
    (hu : startsWithHttp url = true)
    (hl : r.contentLength = none)
    (hfs : fs (download_target url r path fn) = none) :
    download_file (fun _ => r) fs false uj base (fuel + 1) 0 url path fn
      = ([DlEvent.headReq url, DlEvent.getReq url], none) := by
  simp only [download_file, hu, if_true, hx, Bool.false_eq_true, false_and,
    if_false, hl, hfs, Option.getD_none]
  simp

/-- Claim C9 (witness): the theorem applied to a concrete chunked-style
response (no content length) over an empty filesystem. -/
theorem download_file_no_content_length_witness :
    download_file (fun _ => c4RespNoLen) emptyFs false concatJoin
      ("https://m.ex") 1 0 c3Url c3Path (some ("notes.pdf"))
      = ([DlEvent.headReq c3Url, DlEvent.getReq c3Url], none) :=
  download_file_no_content_length c4RespNoLen emptyFs concatJoin
    ("https://m.ex") 0 c3Url c3Path (some ("notes.pdf"))
    (by decide) (by decide) (by decide) (by decide)

/-! ## `_process_resource_page` (source lines 507-670)

The strategy chain over one resource page.  The BeautifulSoup selector
queries and the `re.findall` scans over script bodies are external
capabilities; the `ResourcePage` structure carries their results, in
document order — each field is the list of strings that the
corresponding query of the source produces.  `download_file` appears as
the oracle `dl : String → Option String`.  The run returns the list of
download attempts, as `(method index, url)` pairs following the
source's `Method N` comments (0 being the unlabelled direct-redirect
probe of lines 523-539), together with the returned value. -/

/-- The selector/regex results of one resource page. -/
structure ResourcePage where
  buttonHrefs : List String
  anchorHrefs : List String
  embedSrcs : List String
  mediaSrcs : List String
  scriptMatches : List String
  altHrefs : List String
  metaCourseId : Option String
  bodyText : String
deriving Repr

/-- Models `parse_qs(query).get('id')[0]`: the first `id=value` pair in
the query string with a nonempty value (percent-decoding omitted — the
source's resource ids are plain digits). -/
def splitOnChar (c : Char) : List Char → List (List Char)
  | [] => [[]]
  | d :: rest =>
    let r := splitOnChar c rest
    if d = c then [] :: r
    else
      match r with
      | [] => [[d]]
      | h :: t => (d :: h) :: t

/-- The `resource_id` extraction of `_process_resource_page`
(source lines 517-521). -/
def parseQsId (q : List Char) : Option String :=
  (splitOnChar '&' q).findSome? (fun p =>
    let k := takeUntilChar '=' p
    match afterChar '=' p with
    | some v =>
      if k = ("id").toList ∧ v.isEmpty = false then some (String.mk v)
      else none
    | none => none)

/-- The absolutization idiom repeated through `_process_resource_page`:
leave http(s) URLs alone, join anything else onto the base URL. -/
def absolutize (uj : String → String → String) (base h : String) : String :=
  if startsWithHttp h = true then h else uj base h

/-- The `file_extensions` list of Method 5 (source lines 606-607). -/
def resolution_file_extensions : List String :=
  [".pdf", ".doc", ".docx", ".ppt", ".pptx", ".xls", ".xlsx", ".zip",
   ".rar", ".7z", ".mp3", ".mp4", ".avi", ".mov", ".jpg", ".jpeg",
   ".png", ".gif"]

/-- Method 5's guard: `href.lower().endswith(ext)` for any listed
extension. -/
def lowerEndsWithAny (href : String) : Bool :=
  resolution_file_extensions.any
    (fun e => e.toList.isSuffixOf (href.toList.map Char.toLower))

/-- The `download_links` list of Method 1 (source lines 549-552):
button/workaround/content selector hits, then anchors whose href
contains the download marker, then anchors whose href contains the
file-serving path marker. -/
def download_links (page : ResourcePage) : List String :=
  page.buttonHrefs ++
  page.anchorHrefs.filter (fun h => strContains h ("download")) ++
  page.anchorHrefs.filter (fun h => strContains h ("pluginfile.php"))

/-- The try-each-candidate loops of Methods 3 and 7: download each URL
in turn, returning on the first success and falling through when every
download fails; the trace records each attempt under method index
`m`. -/
def tryDownloadList (dl : String → Option String) (m : Nat) :
    List String → List (Nat × String) × Option String
  | [] => ([], none)
  | u :: rest =>
    match dl u with
    | some res => ([(m, u)], some res)
    | none =>
      let t := tryDownloadList dl m rest
      ((m, u) :: t.1, t.2)

/-- The `cmid` extraction of Method 7 (source lines 630-638): the last
`meta[name=course-id]` content when truthy, else the first
`cmid=<digits>` match in the page body. -/
def cmidOf (page : ResourcePage) : Option String :=
  match page.metaCourseId with
  | some cm =>
    if cm.toList.isEmpty then findNumAfter ("cmid=") page.bodyText
    else some cm
  | none => findNumAfter ("cmid=") page.bodyText

/-- Method 7 (source lines 626-653): when both a `cmid` and a resource
id are at hand, attempt the four constructed URL patterns in turn,
falling through to the not-found return (source lines 655-664) when
every attempt fails. -/
def method7 (dl : String → Option String) (base : String)
    (cmid rid : Option String) (pre : List (Nat × String)) :
    List (Nat × String) × Option String :=
  match cmid, rid with
  | some cm, some i =>
    let t7 := tryDownloadList dl 7
      [base ++ ("/pluginfile.php/") ++ cm ++
         ("/mod_resource/content/1/resource_") ++ i,
       base ++ ("/pluginfile.php/mod_resource/content/") ++ i,
       base ++ ("/mod/resource/view.php?id=") ++ i ++ ("&forcedownload=1"),
       base ++ ("/mod/resource/view.php?id=") ++ i ++ ("&redirect=1")]
    (pre ++ t7.1, t7.2)
  | _, _ => (pre, none)

/-- Method 6 (source lines 616-624): the first nonempty alternative
download link is downloaded and returned unconditionally. -/
def method6 (uj : String → String → String) (base : String)
    (dl : String → Option String) (page : ResourcePage)
    (rid : Option String) (pre : List (Nat × String)) :
    List (Nat × String) × Option String :=
  match page.altHrefs.find? (fun h => !h.toList.isEmpty) with
  | some h =>
    let h1 := absolutize uj base h
    (pre ++ [(6, h1)], dl h1)
  | none => method7 dl base (cmidOf page) rid pre

/-- Method 5 (source lines 605-614): the first anchor whose lowercased
href ends in a known extension is downloaded and returned
unconditionally. -/
def method5 (uj : String → String → String) (base : String)
    (dl : String → Option String) (page : ResourcePage)
    (rid : Option String) (pre : List (Nat × String)) :
    List (Nat × String) × Option String :=
  match page.anchorHrefs.find? lowerEndsWithAny with
  | some h =>
    let h1 := absolutize uj base h
    (pre ++ [(5, h1)], dl h1)
  | none => method6 uj base dl page rid pre

/-- Method 4 (source lines 599-603): with a resource id at hand the
content endpoint is downloaded and returned unconditionally — even when
the download yields `None`. -/
def method4 (uj : String → String → String) (base : String)
    (dl : String → Option String) (page : ResourcePage)
    (rid : Option String) (pre : List (Nat × String)) :
    List (Nat × String) × Option String :=
  match rid with
  | some i =>
    let cu := base ++ ("/mod/resource/content.php?id=") ++ i
    (pre ++ [(4, cu)], dl cu)
  | none => method5 uj base dl page rid pre

/-- Method 3 (source lines 581-597): each script-extracted URL is
absolutized and downloaded in turn; the first success returns, and when
all fail control falls through to Method 4. -/
def method3 (uj : String → String → String) (base : String)
    (dl : String → Option String) (page : ResourcePage)
    (rid : Option String) : List (Nat × String) × Option String :=
  let t3 := tryDownloadList dl 3 (page.scriptMatches.map (absolutize uj base))
  match t3.2 with
  | some res => (t3.1, some res)
  | none => method4 uj base dl page rid t3.1

/-- Method 2 (source lines 564-579): the first embedded source
containing a file-serving marker is downloaded and returned
unconditionally. -/
def method2 (uj : String → String → String) (base : String)
    (dl : String → Option String) (page : ResourcePage)
    (rid : Option String) : List (Nat × String) × Option String :=
  match (page.embedSrcs ++ page.mediaSrcs).find?
      (fun s => !s.toList.isEmpty &&
        (strContains s ("pluginfile.php") || strContains s ("file.php"))) with
  | some s =>
    let s1 := absolutize uj base s
    ([(2, s1)], dl s1)
  | none => method3 uj base dl page rid

/-- Method 1 (source lines 548-562): the first nonempty download link
is downloaded and returned unconditionally. -/
def method1 (uj : String → String → String) (base : String)
    (dl : String → Option String) (page : ResourcePage)
    (rid : Option String) : List (Nat × String) × Option String :=
  match (download_links page).find? (fun h => !h.toList.isEmpty) with
  | some h =>
    let h1 := absolutize uj base h
    ([(1, h1)], dl h1)
  | none => method2 uj base dl page rid

/-- `_process_resource_page` (source lines 507-670).  `probe` is the
`Location` header observed by the no-redirect GET of the direct
`redirect=1` URL when that response is a 301/302/303/307/308 carrying
one, and `none` otherwise (in which case, exactly as on a guard
failure, control falls to the page analysis of Methods 1-7). -/
def process_resource_page (uj : String → String → String) (base : String)
    (dl : String → Option String) (probe : Option String)
    (page : ResourcePage) (url : String) :
    List (Nat × String) × Option String :=
  let url1 := absolutize uj base url
  let rid := parseQsId (urlQueryOf url1)
  match
    (if rid.isSome = true ∧ strContains url1 ("resource/view.php") = true then
      probe
    else none) with
  | some loc =>
    let fu := absolutize uj base loc
    ([((0 : Nat), fu)], dl fu)
  | none => method1 uj base dl page rid

/-- Every entry of a `tryDownloadList` trace carries that loop's method
index. -/
theorem tryDownloadList_mem_fst (dl : String → Option String) (m : Nat) :
    ∀ (urls : List String) (e : Nat × String),
      e ∈ (tryDownloadList dl m urls).1 → e.1 = m := by
  intro urls
  induction urls with
  | nil => intro e he; simp [tryDownloadList] at he
  | cons u rest ih =>
    intro e he
    unfold tryDownloadList at he
    cases hdl : dl u with
    | some res =>
      rw [hdl] at he
      simp at he
      rw [he]
    | none =>
      rw [hdl] at he
      simp at he
      rcases he with he | he
      · rw [he]
      · exact ih e he

/-- Without a resource id, Method 7's guard fails whatever the `cmid`:
nothing is attempted. -/
theorem method7_rid_none (dl : String → Option String) (base : String)
    (cmid : Option String) (pre : List (Nat × String)) :
    method7 dl base cmid none pre = (pre, none) := by
  cases cmid <;> rfl

/-- Method 6 onward, entered without a resource id, never attempts a
Method 7 pattern. -/
theorem method6_no7 (uj : String → String → String) (base : String)
    (dl : String → Option String) (page : ResourcePage)
    (pre : List (Nat × String)) (hpre : ∀ x ∈ pre, x.1 ≠ 7) :
    ∀ e ∈ (method6 uj base dl page none pre).1, e.1 ≠ 7 := by
  intro e he
  simp only [method6] at he
  split at he
  · simp only [List.mem_append] at he
    rcases he with he | he
    · exact hpre e he
    · simp at he
      rw [he]
      show (6 : Nat) ≠ 7
      decide
  · rw [method7_rid_none] at he
    exact hpre e he

/-- Method 5 onward, entered without a resource id, never attempts a
Method 7 pattern. -/
theorem method5_no7 (uj : String → String → String) (base : String)
    (dl : String → Option String) (page : ResourcePage)
    (pre : List (Nat × String)) (hpre : ∀ x ∈ pre, x.1 ≠ 7) :
    ∀ e ∈ (method5 uj base dl page none pre).1, e.1 ≠ 7 := by
  intro e he
  simp only [method5] at he
  split at he
  · simp only [List.mem_append] at he
    rcases he with he | he
    · exact hpre e he
    · simp at he
      rw [he]
      show (5 : Nat) ≠ 7
      decide
  · exact method6_no7 uj base dl page pre hpre e he

/-- Method 4 onward never attempts a Method 7 pattern: with a resource
id it returns the content endpoint unconditionally, and without one the
later methods run with no resource id. -/
theorem method4_no7 (uj : String → String → String) (base : String)
    (dl : String → Option String) (page : ResourcePage)
    (rid : Option String)
    (pre : List (Nat × String)) (hpre : ∀ x ∈ pre, x.1 ≠ 7) :
    ∀ e ∈ (method4 uj base dl page rid pre).1, e.1 ≠ 7 := by
  intro e he
  simp only [method4] at he
  split at he
  · simp only [List.mem_append] at he
    rcases he with he | he
    · exact hpre e he
    · simp at he
      rw [he]
      show (4 : Nat) ≠ 7
      decide
  · exact method5_no7 uj base dl page pre hpre e he

/-- Method 3 onward never attempts a Method 7 pattern. -/
theorem method3_no7 (uj : String → String → String) (base : String)
    (dl : String → Option String) (page : ResourcePage)
    (rid : Option String) :
    ∀ e ∈ (method3 uj base dl page rid).1, e.1 ≠ 7 := by
  intro e he
  simp only [method3] at he
  have h3 : ∀ x ∈ (tryDownloadList dl 3
      (page.scriptMatches.map (absolutize uj base))).1, x.1 ≠ 7 := by
    intro x hx
    rw [tryDownloadList_mem_fst dl 3 _ x hx]
    decide
  split at he
  · exact h3 e he
  · exact method4_no7 uj base dl page rid _ h3 e he

/-- Method 2 onward never attempts a Method 7 pattern. -/
theorem method2_no7 (uj : String → String → String) (base : String)
    (dl : String → Option String) (page : ResourcePage)
    (rid : Option String) :
    ∀ e ∈ (method2 uj base dl page rid).1, e.1 ≠ 7 := by
  intro e he
  simp only [method2] at he
  split at he
  · simp at he
    rw [he]
    show (2 : Nat) ≠ 7
    decide
  · exact method3_no7 uj base dl page rid e he

/-- Method 1 onward never attempts a Method 7 pattern. -/
theorem method1_no7 (uj : String → String → String) (base : String)
    (dl : String → Option String) (page : ResourcePage)
    (rid : Option String) :
    ∀ e ∈ (method1 uj base dl page rid).1, e.1 ≠ 7 := by
  intro e he
  simp only [method1] at he
  split at he
  · simp at he
    rw [he]
    show (1 : Nat) ≠ 7
    decide
  · exact method2_no7 uj base dl page rid e he

/-- Claim C10: the constructed-URL pattern strategy (Method 7) is
unreachable for every input — no run of `_process_resource_page` ever
attempts a Method 7 pattern download, because Method 7 requires a
resource id while Method 4 already returns unconditionally whenever one
is present (even when its download yields `None`). -/
theorem process_resource_page_no_method7
    (uj : String → String → String) (base : String)
    (dl : String → Option String) (probe : Option String)
    (page : ResourcePage) (url : String) :
    ∀ e ∈ (process_resource_page uj base dl probe page url).1, e.1 ≠ 7 := by
  intro e he
  simp only [process_resource_page] at he
  split at he
  · simp at he
    rw [he]
    show (0 : Nat) ≠ 7
    decide
  · exact method1_no7 uj base dl page _ e he

/-- A download oracle on which every attempt fails. -/
def dlNone : String → Option String := fun _ => none

/-- The resource-page URL of the C2/C10 scenarios. -/
def c2Url : String := "https://m.ex/mod/resource/view.php?id=9"

/-- A resource page whose only candidate is one script-embedded file
URL. -/
def c2ScriptPage : ResourcePage :=
  ⟨[], [], [], [], ["https://m.ex/pluginfile.php/1/a.pdf"], [], none, ""⟩

/-- A resource page with both a download-button anchor (strategy 2) and
a script-embedded file URL (strategy 4). -/
def c2BothPage : ResourcePage :=
  ⟨["https://m.ex/pluginfile.php/2/b.pdf"], [], [], [],
   ["https://m.ex/pluginfile.php/1/a.pdf"], [], none, ""⟩

/-- Claim C10 (witness): the theorem applied to a concrete trace entry
of the script-only page's run — the script attempt has method index 3,
not 7. -/
theorem process_resource_page_no_method7_witness :
    ((3 : Nat), ("https://m.ex/pluginfile.php/1/a.pdf")).1 ≠ 7 :=
  process_resource_page_no_method7 concatJoin ("https://m.ex") dlNone none
    c2ScriptPage c2Url
    ((3 : Nat), ("https://m.ex/pluginfile.php/1/a.pdf")) (by decide)

/-- Claim C2 (counterexample): the claim says resolution short-circuits
after the first strategy yielding a candidate even when its download
fails; but on a page whose only candidate is a script-embedded URL
(strategy 4, code Method 3) whose download fails, the engine goes on to
evaluate the content-endpoint strategy (strategy 5, code Method 4): the
trace shows the failed Method 3 attempt followed by a Method 4
attempt. -/
theorem process_resource_page_fallthrough_cex :
    process_resource_page concatJoin ("https://m.ex") dlNone none
      c2ScriptPage c2Url
      = ([(3, ("https://m.ex/pluginfile.php/1/a.pdf")),
          (4, ("https://m.ex/mod/resource/content.php?id=9"))], none) := by
  decide

/-- Claim C2 (amended): the redirect-probe, download-anchor,
embedded-media and content-endpoint strategies short-circuit — their
first candidate is downloaded and returned regardless of the download's
outcome — while the script-URL and pattern-guess strategies try each
candidate and fall through when all their downloads fail.  In
particular, whenever the download-links query yields a candidate (and
the redirect probe yielded nothing), exactly that one download is
attempted and returned, failed or not: on a page with both a
download-button anchor and a script-embedded URL, the anchor is used
and the script strategy is never evaluated. -/
theorem process_resource_page_shortcircuit
    (uj : String → String → String) (base : String)
    (dl : String → Option String) (page : ResourcePage) (url : String)
    (h : String)
    (hfind : (download_links page).find? (fun s => !s.toList.isEmpty)
      = some h) :
    process_resource_page uj base dl none page url
      = ([(1, absolutize uj base h)], dl (absolutize uj base h)) := by
  simp only [process_resource_page, ite_self]
  simp only [method1, hfind]

/-- Claim C2 (witness): the amended theorem applied to the page holding
both a download-button anchor and a script-embedded URL, with every
download failing: the single attempt is the strategy-2 anchor, the
script URL is never attempted, and the failure is returned as is. -/
theorem process_resource_page_shortcircuit_witness :
    process_resource_page concatJoin ("https://m.ex") dlNone none
      c2BothPage c2Url
      = ([(1, ("https://m.ex/pluginfile.php/2/b.pdf"))], none) :=
  process_resource_page_shortcircuit concatJoin ("https://m.ex") dlNone
    c2BothPage c2Url ("https://m.ex/pluginfile.php/2/b.pdf") (by decide)

end MoodleDL
